import Mathlib

/-!
Verification development for the therapy-tools survey backend.

The embedding below follows `src/src/functions/survey-submission.js`, the
complete submission pipeline registered on the `survey-submission` route
(validation schema, tag catalog check, response persistence, per-tag
upserts, Kit.com sync, sync-status patch), together with the
`sanitizeInput` utility from the validation helpers module.

Modelling conventions:
- Azure Table Storage tables are association lists keyed by
  `(partitionKey, rowKey)`; `createEntity` appends (failing on a key
  collision or a storage fault), `upsertEntity` with Replace mode replaces
  the keyed record or inserts it, and `updateEntity` with Merge mode
  patches an existing record and fails when the key is absent.
- Effectful outcomes (storage faults, the Kit.com fetch result, generated
  ids, clock readings) are supplied by a `World` record so the handler is
  a pure function of request, world and initial store contents.
- `JSON.stringify` on nested values is abstracted as storing the
  structured value itself (serialization is an injective representation
  and no claim depends on the serialized text).
- Joi string length counts UTF-16 units; the model counts characters.
- `Joi.string().email()` is modelled by the repository's own
  `isValidEmail` predicate from the validation utilities module.
- `Joi.string().isoDate()` on the optional `timestamp` field is not
  modelled: bodies whose timestamp, when present, is a malformed ISO
  string lie outside the model; no claim depends on that check.
-/

namespace SurveyBackend

/-- JS `String.prototype.startsWith`-style matcher on character lists:
`charsBeginWith pat l` holds when `pat` occurs at the head of `l`. -/
def charsBeginWith : List Char → List Char → Bool
  | [], _ => true
  | _ :: _, [] => false
  | c :: cs, d :: ds => c == d && charsBeginWith cs ds

/-- JS `hay.includes(needle)`: `needle` occurs contiguously in `hay`. -/
def strIncludes (hay needle : String) : Bool :=
  (List.range (hay.toList.length + 1)).any
    (fun i => charsBeginWith needle.toList (hay.toList.drop i))

/-- Outcome of the `fetch` call to the Kit.com API, as seen by the caller:
`ok` is a 2xx response, `httpError` a non-2xx response (`response.ok`
false), `netError` a thrown error (network failure or timeout). -/
inductive FetchOutcome
  | ok (body : String)
  | httpError (code : Nat) (body : String)
  | netError (msg : String)
deriving DecidableEq

/-- The outbound payload `syncTagsToKit` sends to the Kit.com API
(survey-submission.js lines 76-85): email, the filtered tag names (the JS
wraps each name as `{name: tag}`; we keep the list of names), and the
optional form id. -/
structure KitPayload where
  email : String
  tags : List String
  formId : Option String
deriving DecidableEq

/-- Result object returned by `syncTagsToKit` (status is one of
"skipped", "success", "failed"). -/
structure KitSyncResult where
  status : String
  message : String
  tagssynced : Option Nat
deriving DecidableEq

/-- survey-submission.js line 64: tags containing the `_other` marker are
filtered out before the Kit.com call. -/
def validKitTags (selectedTags : List String) : List String :=
  selectedTags.filter (fun tag => !(strIncludes tag "_other"))

/-- `syncTagsToKit` (survey-submission.js lines 51-126). Returns the
result object together with the payload of the network call that was
made, `none` when no call was attempted. `kitApiKey = none` models the JS
falsy check `!kitApiKey` (unset or empty credential). -/
def syncTagsToKit (kitApiKey kitFormId : Option String) (email : String)
    (selectedTags : List String) (fetchResult : FetchOutcome) :
    KitSyncResult × Option KitPayload :=
  match kitApiKey with
  | none => (⟨"skipped", "Kit.com API key not configured", none⟩, none)
  | some _ =>
    let kt := validKitTags selectedTags
    if kt.isEmpty then
      (⟨"skipped", "No valid tags to sync", none⟩, none)
    else
      let payload : KitPayload := ⟨email, kt, kitFormId⟩
      match fetchResult with
      | .ok _ =>
          (⟨"success", "Tags synced successfully to Kit.com", some kt.length⟩,
            some payload)
      | .httpError code _ =>
          (⟨"failed", "Kit.com API error: " ++ toString code, none⟩, some payload)
      | .netError _ =>
          (⟨"failed", "Failed to connect to Kit.com API", none⟩, some payload)

/-- Claim C3: for every email and submitted tag list, the outbound payload
sent by the external tag sync contains no tag carrying the "other"
sentinel marker, even when such tags are present in the submitted list. -/
theorem kit_payload_excludes_other_tags (key : String) (formId : Option String)
    (email : String) (selectedTags : List String) (fetchResult : FetchOutcome)
    (p : KitPayload)
    (hp : (syncTagsToKit (some key) formId email selectedTags fetchResult).2 = some p)
    (t : String) (ht : t ∈ p.tags) : strIncludes t "_other" = false := by
  have hpt : p.tags = validKitTags selectedTags := by
    unfold syncTagsToKit at hp
    cases fetchResult <;> by_cases hk : (validKitTags selectedTags).isEmpty <;>
      simp [hk] at hp <;> simp [← hp]
  rw [hpt] at ht
  have := List.of_mem_filter ht
  simpa using this

/-- Witness for C3: a concrete call whose input holds `role_other`;
the payload keeps only `mod_cbt`, which carries no sentinel marker. -/
theorem kit_payload_excludes_other_tags_witness :
    strIncludes "mod_cbt" "_other" = false :=
  kit_payload_excludes_other_tags "k" none "a@b.com" ["role_other", "mod_cbt"]
    (.ok "") ⟨"a@b.com", ["mod_cbt"], none⟩ (by decide) "mod_cbt" (by decide)

/-- Claim C6: with no configured credential, or no tags left after
filtering the "other" sentinel tags, the sync returns status `skipped`
and performs no network call. -/
theorem sync_skipped_no_call (kitApiKey kitFormId : Option String)
    (email : String) (selectedTags : List String) (fetchResult : FetchOutcome)
    (h : kitApiKey = none ∨ validKitTags selectedTags = []) :
    (syncTagsToKit kitApiKey kitFormId email selectedTags fetchResult).1.status
        = "skipped"
      ∧ (syncTagsToKit kitApiKey kitFormId email selectedTags fetchResult).2
        = none := by
  rcases h with h | h
  · subst h; simp [syncTagsToKit]
  · cases kitApiKey with
    | none => simp [syncTagsToKit]
    | some k => simp [syncTagsToKit, h]

/-- Witness for C6: unconfigured credential on one side, and a configured
credential with only sentinel tags on the other. -/
theorem sync_skipped_no_call_witness :
    ((syncTagsToKit none none "a@b.com" ["mod_cbt"] (.ok "")).1.status = "skipped"
      ∧ (syncTagsToKit none none "a@b.com" ["mod_cbt"] (.ok "")).2 = none)
    ∧ ((syncTagsToKit (some "k") none "a@b.com" ["role_other"] (.ok "")).1.status
          = "skipped"
      ∧ (syncTagsToKit (some "k") none "a@b.com" ["role_other"] (.ok "")).2
          = none) :=
  ⟨sync_skipped_no_call none none "a@b.com" ["mod_cbt"] (.ok "") (Or.inl rfl),
    sync_skipped_no_call (some "k") none "a@b.com" ["role_other"] (.ok "")
      (Or.inr (by decide))⟩

/-- JS `String.prototype.toLowerCase`, modelled characterwise (ASCII
case folding; the tag and email strings this pipeline lowercases are
ASCII). -/
def toLowerString (s : String) : String :=
  String.mk (s.toList.map Char.toLower)

/-- A character the regex class `[^\s@]` accepts. -/
def emailCharOk (c : Char) : Bool :=
  !c.isWhitespace && !(c == '@')

/-- The domain part of the email regex, `[^\s@]+\.[^\s@]+`: every
character in the class, and a dot at some interior position. -/
def emailDomainOk (l : List Char) : Bool :=
  l.all emailCharOk &&
    (List.range l.length).any (fun i =>
      decide (0 < i) && decide (i + 1 < l.length) && (l.getD i ' ' == '.'))

/-- `isValidEmail` from the validation utilities module: the regex
`^[^\s@]+@[^\s@]+\.[^\s@]+$`. Equivalently: exactly one `@`, a nonempty
local part of class characters before it, and a conforming domain after
it. Also the model of `Joi.string().email()`. -/
def isValidEmail (s : String) : Bool :=
  let cs := s.toList
  (cs.count '@' == 1) &&
    (let localPart := cs.takeWhile (fun c => !(c == '@'))
     let domain := (cs.dropWhile (fun c => !(c == '@'))).drop 1
     !localPart.isEmpty && localPart.all emailCharOk && emailDomainOk domain)

/-- JS `String.prototype.trim`: strip whitespace from both ends. -/
def trimChars (l : List Char) : List Char :=
  ((l.dropWhile Char.isWhitespace).reverse.dropWhile Char.isWhitespace).reverse

/-- `sanitizeInput` from the validation utilities module: trim, strip
angle brackets, strip single and double quotes (code points 39 and 34),
truncate to 1000 characters. -/
def sanitizeInput (input : String) : String :=
  String.mk
    (((((trimChars input.toList).filter (fun c => !(c == '<') && !(c == '>'))).filter
        (fun c => !(c == Char.ofNat 39) && !(c == Char.ofNat 34)))).take 1000)

/-- Allowed values for `surveyData.setting` (surveySubmissionSchema). -/
def settingVals : List String :=
  ["setting_inperson", "setting_mostly_inperson", "setting_mixed",
   "setting_mostly_online", "setting_online_only"]

/-- Allowed values for `surveyData.profession`. -/
def professionVals : List String :=
  ["role_therapist", "role_social_worker", "role_psychologist",
   "role_school_counselor", "role_student", "role_clergy",
   "role_sud_counselor", "role_peer_specialist", "role_other"]

/-- Allowed values for `surveyData.populations` items. -/
def populationVals : List String :=
  ["pop_children10u", "pop_teens", "pop_adults",
   "pop_couples", "pop_families", "pop_groups", "pop_all_day"]

/-- Allowed values for `surveyData.interests` items. -/
def interestVals : List String :=
  ["interest_sandtray", "interest_art", "interest_feelings_wheel",
   "interest_humans", "interest_tumbling", "interest_jeopardy",
   "interest_bingo", "interest_mandala"]

/-- Allowed values for `surveyData.frequency`. -/
def frequencyVals : List String :=
  ["freq_daily", "freq_weekly", "freq_monthly", "freq_occasionally"]

/-- Allowed values for `surveyData.modalities` items. -/
def modalityVals : List String :=
  ["mod_cbt", "mod_dbt", "mod_solutions", "mod_expressive",
   "mod_emdr", "mod_couples", "mod_ifs", "mod_eclectic", "mod_other"]

/-- The handler's own catalog union `validTags` (survey-submission.js
lines 396-416), written out literally as in the source. -/
def validTags : List String :=
  ["setting_inperson", "setting_mostly_inperson", "setting_mixed",
   "setting_mostly_online", "setting_online_only",
   "role_therapist", "role_social_worker", "role_psychologist",
   "role_school_counselor", "role_student", "role_clergy",
   "role_sud_counselor", "role_peer_specialist", "role_other",
   "pop_children10u", "pop_teens", "pop_adults",
   "pop_couples", "pop_families", "pop_groups", "pop_all_day",
   "interest_sandtray", "interest_art", "interest_feelings_wheel",
   "interest_humans", "interest_tumbling", "interest_jeopardy",
   "interest_bingo", "interest_mandala",
   "freq_daily", "freq_weekly", "freq_monthly", "freq_occasionally",
   "mod_cbt", "mod_dbt", "mod_solutions", "mod_expressive",
   "mod_emdr", "mod_couples", "mod_ifs", "mod_eclectic", "mod_other"]

/-- The `surveyData` sub-object of the request body. `none` models an
absent field. -/
structure SurveyDataIn where
  setting : Option String
  profession : Option String
  populations : Option (List String)
  interests : Option (List String)
  frequency : Option String
  modalities : Option (List String)
  professionOther : Option String
  modalityOther : Option String
deriving DecidableEq

/-- The `customResponses` sub-object of the request body. -/
structure CustomResponsesIn where
  roleOther : Option String
  modOther : Option String
deriving DecidableEq

/-- A parsed request body. Fields are `Option` to model absence; values
are already typed (a field present with the wrong JSON type is outside
the model, no claim depends on Joi type errors). -/
structure RequestBody where
  name : Option String
  email : Option String
  surveyData : Option SurveyDataIn
  recommendations : Option (List String)
  selectedTags : Option (List String)
  customResponses : Option CustomResponsesIn
  timestamp : Option String
  completed : Option Bool
deriving DecidableEq

/-- One entry of the 400 response's `details.errors` list: the handler
maps each Joi detail to `{field: path.join(.), message, value}`; the
model keeps field and message (item errors inside an array use the array
field path without the numeric index). -/
structure Violation where
  field : String
  message : String
deriving DecidableEq

/-- Item-and-min checks for a required multi-select array field. -/
def validateMultiSelect (fieldName : String) (vals : List String)
    (v : Option (List String)) : List Violation :=
  match v with
  | none => [⟨fieldName, "is required"⟩]
  | some l =>
      (l.filter (fun x => !(vals.contains x))).map
        (fun x => ⟨fieldName, "invalid value " ++ x⟩) ++
      (if l.isEmpty then [⟨fieldName, "must contain at least 1 items"⟩] else [])

/-- Check for a required single-select string field. -/
def validateSingleSelect (fieldName : String) (vals : List String)
    (v : Option String) : List Violation :=
  match v with
  | none => [⟨fieldName, "is required"⟩]
  | some s =>
      if vals.contains s then [] else [⟨fieldName, "must be one of the allowed values"⟩]

/-- Check for an optional bounded free-text field (empty string allowed). -/
def validateOptionalText (fieldName : String) (maxLen : Nat)
    (v : Option String) : List Violation :=
  match v with
  | none => []
  | some s => if maxLen < s.length then [⟨fieldName, "length must be at most " ++ toString maxLen⟩] else []

/-- Violations of the `surveyData` sub-schema. -/
def validateSurveyData (sd : SurveyDataIn) : List Violation :=
  validateSingleSelect "surveyData.setting" settingVals sd.setting ++
  validateSingleSelect "surveyData.profession" professionVals sd.profession ++
  validateMultiSelect "surveyData.populations" populationVals sd.populations ++
  validateMultiSelect "surveyData.interests" interestVals sd.interests ++
  validateSingleSelect "surveyData.frequency" frequencyVals sd.frequency ++
  validateMultiSelect "surveyData.modalities" modalityVals sd.modalities ++
  validateOptionalText "surveyData.profession_other" 500 sd.professionOther ++
  validateOptionalText "surveyData.modality_other" 500 sd.modalityOther

/-- `surveySubmissionSchema.validate(body, \x7babortEarly: false\x7d)`
(survey-submission.js lines 234-280): the exhaustive list of violations,
empty iff validation passes. `recommendations` and `completed` carry no
checks beyond their type; the optional `timestamp` isoDate check is
abstracted (see the file header). -/
def validateSurveySubmission (b : RequestBody) : List Violation :=
  (match b.name with
   | none => [⟨"name", "is required"⟩]
   | some s =>
      (if s.length < 1 then [⟨"name", "length must be at least 1"⟩] else []) ++
      (if 255 < s.length then [⟨"name", "length must be at most 255"⟩] else [])) ++
  (match b.email with
   | none => [⟨"email", "is required"⟩]
   | some s => if isValidEmail s then [] else [⟨"email", "must be a valid email"⟩]) ++
  (match b.surveyData with
   | none => [⟨"surveyData", "is required"⟩]
   | some sd => validateSurveyData sd) ++
  (match b.selectedTags with
   | none => [⟨"selectedTags", "is required"⟩]
   | some l => if l.isEmpty then [⟨"selectedTags", "must contain at least 1 items"⟩] else []) ++
  (match b.customResponses with
   | none => []
   | some c =>
      validateOptionalText "customResponses.role_other" 500 c.roleOther ++
      validateOptionalText "customResponses.mod_other" 500 c.modOther)

/-- A record of the `usertags` table, as built by `saveUserTags`
(survey-submission.js lines 193-202). `createdAt` is the clock reading
(`new Date()`) at upsert time. -/
structure TagEntity where
  partitionKey : String
  rowKey : String
  therapistId : String
  email : String
  tagName : String
  tagSource : String
  createdAt : Nat
deriving DecidableEq

/-- The tag entity `saveUserTags` builds for one tag name. -/
def mkTagEntity (email tag : String) (now : Nat) : TagEntity :=
  { partitionKey := toLowerString email
    rowKey := tag
    therapistId := ""
    email := toLowerString email
    tagName := tag
    tagSource := "survey"
    createdAt := now }

/-- Key test used by the table model. -/
def tagKeyMatches (pk rk : String) (e : TagEntity) : Bool :=
  e.partitionKey == pk && e.rowKey == rk

/-- Whether the table holds a record with the given key. -/
def hasTagKey (store : List TagEntity) (pk rk : String) : Bool :=
  store.any (tagKeyMatches pk rk)

/-- `upsertEntity(entity, Replace)` on the usertags table: replace the
record with the same `(partitionKey, rowKey)` key, or insert a new one. -/
def upsertEntity (store : List TagEntity) (e : TagEntity) : List TagEntity :=
  if hasTagKey store e.partitionKey e.rowKey then
    store.map (fun x => if tagKeyMatches e.partitionKey e.rowKey x then e else x)
  else store ++ [e]

/-- The aggregate result `saveUserTags` returns (lines 225-230). -/
structure TagSummary where
  totalTags : Nat
  successCount : Nat
  failedCount : Nat
  failedTags : List String
deriving DecidableEq

/-- `saveUserTags` (survey-submission.js lines 192-231). `ok t` says
whether the storage upsert for tag `t` succeeds; a failed upsert is
caught per tag, leaves the table unchanged for that tag, and is
aggregated into the summary. The JS runs the upserts through
`Promise.all`; keys are per-tag, so the model folds them in
submission order. -/
def saveUserTags (email : String) (selectedTags : List String)
    (ok : String → Bool) (now : Nat) (store : List TagEntity) :
    TagSummary × List TagEntity :=
  let newStore := selectedTags.foldl
    (fun st t => if ok t then upsertEntity st (mkTagEntity email t now) else st)
    store
  let failed := selectedTags.filter (fun t => !(ok t))
  (⟨selectedTags.length, (selectedTags.filter ok).length, failed.length, failed⟩,
    newStore)

/-- A record of the `surveyresponses` table, as built by
`saveSurveyResponse` (survey-submission.js lines 164-177) and patched by
`updateKitSyncStatus`. `kitSyncedAt` is absent until a merge sets it. -/
structure ResponseEntity where
  partitionKey : String
  rowKey : String
  therapistId : String
  email : String
  name : String
  surveyData : SurveyDataIn
  recommendations : List String
  selectedTags : List String
  customResponses : CustomResponsesIn
  completedAt : String
  completed : Bool
  kitSyncStatus : String
  kitSyncedAt : Option Nat
deriving DecidableEq

/-- The entity `saveSurveyResponse` persists (lines 164-177): partition
key is the lowercased email, row key a generated id, `completed` is the
JS expression `completed || true`, `kitSyncStatus` starts at `pending`,
and `completedAt` falls back to the current clock when no timestamp was
supplied. -/
def surveyResponseEntity (name email : String) (sd : SurveyDataIn)
    (recommendations selectedTags : List String) (customResponses : CustomResponsesIn)
    (timestamp : Option String) (completed : Bool) (genId : String)
    (nowIso : String) : ResponseEntity :=
  { partitionKey := toLowerString email
    rowKey := genId
    therapistId := ""
    email := toLowerString email
    name := name
    surveyData := sd
    recommendations := recommendations
    selectedTags := selectedTags
    customResponses := customResponses
    completedAt := timestamp.getD nowIso
    completed := completed || true
    kitSyncStatus := "pending"
    kitSyncedAt := none }

/-- `updateKitSyncStatus` (survey-submission.js lines 129-144): a Merge
update of `kitSyncStatus` and `kitSyncedAt` on the keyed response record.
The merge fails (404) when no record has that key, and may fail on a
storage fault (`patchOk = false`); either failure is caught and logged,
leaving the table unchanged. -/
def updateKitSyncStatus (pk rk status : String) (now : Nat) (patchOk : Bool)
    (store : List ResponseEntity) : List ResponseEntity :=
  if patchOk && store.any (fun e => e.partitionKey == pk && e.rowKey == rk) then
    store.map (fun e =>
      if e.partitionKey == pk && e.rowKey == rk then
        { e with kitSyncStatus := status, kitSyncedAt := some now }
      else e)
  else store

/-- Environment and effect outcomes for one request. `genId1` is the id
`generateId()` produces inside `saveSurveyResponse`; `genId2` the one the
handler produces at line 442 — `createEntity` resolves to the
insert-headers object (etag, request id), which has no `rowKey` field, so
the JS expression `surveyResponseResult.rowKey || generateId()` always
takes the `generateId()` fallback. -/
structure World where
  clientsInit : Bool
  hasStorageConn : Bool
  ensureOk : Bool
  kitApiKey : Option String
  kitFormId : Option String
  genId1 : String
  genId2 : String
  appendOk : Bool
  tagUpsertOk : String → Bool
  fetchOutcome : FetchOutcome
  patchOk : Bool
  now : Nat
  nowIso : String

/-- Detail payloads of `createErrorResponse` as used by the handler. -/
inductive ErrorDetails
  | noDetails
  | validationErrors (errs : List Violation)
  | invalidTagsDetail (tags : List String)
  | errorMessage (msg : String)
deriving DecidableEq

/-- The `tagResults` summary embedded in the success response. -/
structure TagResults where
  totalTags : Nat
  savedTags : Nat
  failedTags : Nat
deriving DecidableEq

/-- The `data` object of the success response (lines 482-498). -/
structure ResponseData where
  email : String
  name : String
  tagsProcessed : Nat
  recommendationsCount : Nat
  hasCustomResponses : Bool
  validationPassed : Bool
  databaseStatus : String
  tagResults : TagResults
  kitSyncStatus : String
  kitSyncMessage : String
  kitTagssynced : Nat
deriving DecidableEq

/-- The handler's response: the CORS preflight reply (status 200, no
body), `createErrorResponse(status, message, details)` (body has
`success:false`), or `createSuccessResponse(data)` (status 200, body has
`success:true`). -/
inductive HandlerResponse
  | preflight
  | errorResponse (status : Nat) (message : String) (details : ErrorDetails)
  | successResponse (data : ResponseData)
deriving DecidableEq

/-- HTTP status of a handler response. -/
def HandlerResponse.status : HandlerResponse → Nat
  | .preflight => 200
  | .errorResponse s _ _ => s
  | .successResponse _ => 200

/-- The `success` field of the JSON body (`none` for the body-less
preflight reply). -/
def HandlerResponse.success : HandlerResponse → Option Bool
  | .preflight => none
  | .errorResponse _ _ _ => some false
  | .successResponse _ => some true

/-- The `surveySubmission` handler (survey-submission.js lines 321-508)
as a pure function of method, parsed body (`none` models a JSON parse
error), world, and the two tables; it returns the response and the final
tables. The JS try/catch around `saveUserTags` is unreachable because
`saveUserTags` handles each per-tag error internally and never rejects;
the outermost catch surfaces the initialization failures (missing
connection string, `ensureTablesExist` fault) as a 500. -/
def surveySubmission (method : String) (body : Option RequestBody) (w : World)
    (rs : List ResponseEntity) (ts : List TagEntity) :
    HandlerResponse × List ResponseEntity × List TagEntity :=
  if method == "OPTIONS" then (.preflight, rs, ts)
  else
    match body with
    | none => (.errorResponse 400 "Invalid JSON in request body" .noDetails, rs, ts)
    | some b =>
      let errs := validateSurveySubmission b
      if !errs.isEmpty then
        (.errorResponse 400 "Validation failed" (.validationErrors errs), rs, ts)
      else
        let name := b.name.getD ""
        let email := b.email.getD ""
        let sd := b.surveyData.getD ⟨none, none, none, none, none, none, none, none⟩
        let recommendations := b.recommendations.getD []
        let selectedTags := b.selectedTags.getD []
        let customResponses := b.customResponses.getD ⟨none, none⟩
        let completed := b.completed.getD true
        if !w.clientsInit && (!w.hasStorageConn || !w.ensureOk) then
          (.errorResponse 500 "Internal server error" .noDetails, rs, ts)
        else
          let invalidTags := selectedTags.filter (fun t => !(validTags.contains t))
          if !invalidTags.isEmpty then
            (.errorResponse 400 "Invalid tags detected" (.invalidTagsDetail invalidTags),
              rs, ts)
          else
            let entity := surveyResponseEntity name email sd recommendations
              selectedTags customResponses b.timestamp completed w.genId1 w.nowIso
            if !w.appendOk ||
                rs.any (fun e => e.partitionKey == entity.partitionKey &&
                  e.rowKey == entity.rowKey) then
              (.errorResponse 500 "Failed to save survey response"
                (.errorMessage "storage write failed"), rs, ts)
            else
              let rs1 := rs ++ [entity]
              let surveyRowKey := w.genId2
              let tagOut := saveUserTags email selectedTags w.tagUpsertOk w.now ts
              let kitOut := syncTagsToKit w.kitApiKey w.kitFormId email selectedTags
                w.fetchOutcome
              let rs2 := updateKitSyncStatus (toLowerString email) surveyRowKey
                kitOut.1.status w.now w.patchOk rs1
              (.successResponse
                { email := email
                  name := name
                  tagsProcessed := selectedTags.length
                  recommendationsCount := recommendations.length
                  hasCustomResponses :=
                    customResponses.roleOther.isSome || customResponses.modOther.isSome
                  validationPassed := true
                  databaseStatus := "success"
                  tagResults := ⟨tagOut.1.totalTags, tagOut.1.successCount,
                    tagOut.1.failedCount⟩
                  kitSyncStatus := kitOut.1.status
                  kitSyncMessage := kitOut.1.message
                  kitTagssynced := kitOut.1.tagssynced.getD 0 },
                rs2, tagOut.2)

/-- The violations reported by a 400 validation response (empty for any
other response shape). -/
def HandlerResponse.reportedViolations : HandlerResponse → List Violation
  | .errorResponse _ _ (.validationErrors errs) => errs
  | _ => []

/-- A catalog-conformant `surveyData` object used as concrete input. -/
def sampleSurveyData : SurveyDataIn :=
  ⟨some "setting_mixed", some "role_therapist", some ["pop_adults"],
    some ["interest_art"], some "freq_weekly", some ["mod_cbt"], none, none⟩

/-- A fully healthy environment: storage configured, Kit.com configured,
every effect succeeds. -/
def sampleWorld : World :=
  { clientsInit := true
    hasStorageConn := true
    ensureOk := true
    kitApiKey := some "key"
    kitFormId := none
    genId1 := "id1"
    genId2 := "id2"
    appendOk := true
    tagUpsertOk := fun _ => true
    fetchOutcome := .ok ""
    patchOk := true
    now := 7
    nowIso := "2025-01-01T00:00:00Z" }

/-- A request body that passes the whole schema, whose `name` contains
an angle bracket (legal for Joi: length between 1 and 255). -/
def angleBracketBody : RequestBody :=
  { name := some "A<b>"
    email := some "a@b.com"
    surveyData := some sampleSurveyData
    recommendations := none
    selectedTags := some ["mod_cbt"]
    customResponses := none
    timestamp := none
    completed := some true }

/-- Claim C9: the persisted record's `completed` field is the JS
expression `completed || true`, hence `true` for every submission,
including one that explicitly supplies `completed:false`. -/
theorem stored_completed_always_true (name email : String) (sd : SurveyDataIn)
    (recommendations selectedTags : List String)
    (customResponses : CustomResponsesIn) (timestamp : Option String)
    (completed : Bool) (genId nowIso : String) :
    (surveyResponseEntity name email sd recommendations selectedTags
      customResponses timestamp completed genId nowIso).completed = true := by
  simp [surveyResponseEntity]

/-- Claim C10: on any POST request — unparseable body included — and any
collaborator outcome, the handler returns a response with status 200, 400
or 500, with `success:true` exactly on 200; errors not handled by an
inner branch surface as the 500 `Internal server error` response. -/
theorem handler_status_total (body : Option RequestBody) (w : World)
    (rs : List ResponseEntity) (ts : List TagEntity) :
    ((surveySubmission "POST" body w rs ts).1.status = 200
        ∧ (surveySubmission "POST" body w rs ts).1.success = some true)
      ∨ ((surveySubmission "POST" body w rs ts).1.status = 400
        ∧ (surveySubmission "POST" body w rs ts).1.success = some false)
      ∨ ((surveySubmission "POST" body w rs ts).1.status = 500
        ∧ (surveySubmission "POST" body w rs ts).1.success = some false) := by
  have hm : (("POST" : String) == "OPTIONS") = false := by decide
  cases body with
  | none =>
      simp [surveySubmission, hm, HandlerResponse.status, HandlerResponse.success]
  | some b =>
      simp only [surveySubmission, hm, Bool.false_eq_true, if_false]
      split_ifs <;>
        simp [HandlerResponse.status, HandlerResponse.success]

/-- Counterexample to claim C8: a schema-valid submission whose name
holds an angle bracket is persisted verbatim, not as its sanitized form
(`sanitizeInput` would strip the brackets). -/
theorem sanitize_not_applied_counterexample :
    (surveySubmission "POST" (some angleBracketBody) sampleWorld [] []).2.1.map
        ResponseEntity.name = ["A<b>"]
      ∧ sanitizeInput "A<b>" = "Ab"
      ∧ ("A<b>" : String) ≠ "Ab" := by
  refine ⟨by decide, by decide, by decide⟩

/-- Claim C8 as amended: the pipeline persists identity and free-text
strings verbatim (no sanitization before the write); the `sanitizeInput`
utility — which does strip angle brackets and quote characters and
truncate to 1000 characters — exists in the validation helpers but is
not invoked on the persistence path. -/
theorem persisted_verbatim_and_sanitizer_props :
    (∀ (name email : String) (sd : SurveyDataIn)
        (recommendations selectedTags : List String)
        (customResponses : CustomResponsesIn) (timestamp : Option String)
        (completed : Bool) (genId nowIso : String),
      (surveyResponseEntity name email sd recommendations selectedTags
          customResponses timestamp completed genId nowIso).name = name
      ∧ (surveyResponseEntity name email sd recommendations selectedTags
          customResponses timestamp completed genId nowIso).customResponses
        = customResponses)
    ∧ (∀ s : String,
        ((sanitizeInput s).toList.all (fun c =>
          !(c == '<') && !(c == '>') && !(c == Char.ofNat 39)
            && !(c == Char.ofNat 34))) = true
        ∧ (sanitizeInput s).length ≤ 1000) := by
  constructor
  · intro name email sd recommendations selectedTags customResponses timestamp
      completed genId nowIso
    exact ⟨rfl, rfl⟩
  · intro s
    constructor
    · rw [List.all_eq_true]
      intro c hc
      have hc2 : c ∈ ((trimChars s.toList).filter
          (fun c => !(c == '<') && !(c == '>'))).filter
          (fun c => !(c == Char.ofNat 39) && !(c == Char.ofNat 34)) :=
        List.take_subset 1000 _ hc
      rw [List.mem_filter] at hc2
      obtain ⟨hc1, hq⟩ := hc2
      rw [List.mem_filter] at hc1
      obtain ⟨-, hp⟩ := hc1
      rw [Bool.and_eq_true] at hp hq
      simp [hp.1, hp.2, hq.1, hq.2]
    · show (List.take 1000 _).length ≤ 1000
      rw [List.length_take]
      exact min_le_left _ _

/-- A body missing two required top-level fields (name, surveyData). -/
def twoViolationsBody : RequestBody :=
  { name := none
    email := some "a@b.com"
    surveyData := none
    recommendations := none
    selectedTags := some ["mod_cbt"]
    customResponses := none
    timestamp := none
    completed := none }

/-- A schema-valid body whose flattened tag list holds a value outside
the catalog union. -/
def validBodyBadTag : RequestBody :=
  { name := some "Ann"
    email := some "a@b.com"
    surveyData := some sampleSurveyData
    recommendations := none
    selectedTags := some ["mod_cbt", "bogus_tag"]
    customResponses := none
    timestamp := none
    completed := some true }

/-- A fully valid body. -/
def validBody : RequestBody :=
  { name := some "Ann"
    email := some "a@b.com"
    surveyData := some sampleSurveyData
    recommendations := none
    selectedTags := some ["mod_cbt"]
    customResponses := none
    timestamp := none
    completed := some true }

/-- Claim C7: a submission violating two or more distinct fields is
rejected with a 400 whose details enumerate the full violation list —
every violated field appears, not only the first violation. -/
theorem validation_errors_exhaustive (b : RequestBody) (w : World)
    (rs : List ResponseEntity) (ts : List TagEntity) (f g : String)
    (hfg : f ≠ g)
    (hf : f ∈ (validateSurveySubmission b).map Violation.field)
    (hg : g ∈ (validateSurveySubmission b).map Violation.field) :
    (surveySubmission "POST" (some b) w rs ts).1
      = .errorResponse 400 "Validation failed"
          (.validationErrors (validateSurveySubmission b))
    ∧ ∀ v ∈ validateSurveySubmission b,
        v ∈ (surveySubmission "POST" (some b) w rs ts).1.reportedViolations := by
  have hm : (("POST" : String) == "OPTIONS") = false := by decide
  have hne : validateSurveySubmission b ≠ [] := by
    intro h; rw [h] at hf; simp at hf
  have hie : (validateSurveySubmission b).isEmpty = false := by
    cases h : validateSurveySubmission b with
    | nil => exact absurd h hne
    | cons x xs => rfl
  constructor
  · simp [surveySubmission, hm, hie]
  · intro v hv
    simp [surveySubmission, hm, hie, HandlerResponse.reportedViolations, hv]

/-- Witness for C7: the two-violation body is answered with the full
two-entry list. -/
theorem validation_errors_exhaustive_witness :
    (surveySubmission "POST" (some twoViolationsBody) sampleWorld [] []).1
      = .errorResponse 400 "Validation failed"
          (.validationErrors (validateSurveySubmission twoViolationsBody))
    ∧ ∀ v ∈ validateSurveySubmission twoViolationsBody,
        v ∈ (surveySubmission "POST" (some twoViolationsBody)
          sampleWorld [] []).1.reportedViolations :=
  validation_errors_exhaustive twoViolationsBody sampleWorld [] [] "name"
    "surveyData" (by decide) (by decide) (by decide)

/-- Claim C5: a submission whose flattened tag list holds a value outside
the catalog union — every per-question field individually valid — is
rejected with a 400 naming exactly the invalid tag values, and neither
table is written. -/
theorem invalid_tags_rejected_no_writes (b : RequestBody) (w : World)
    (rs : List ResponseEntity) (ts : List TagEntity)
    (hval : validateSurveySubmission b = [])
    (henv : (!w.clientsInit && (!w.hasStorageConn || !w.ensureOk)) = false)
    (hinv : ∃ x ∈ b.selectedTags.getD [], x ∉ validTags) :
    (surveySubmission "POST" (some b) w rs ts)
      = (.errorResponse 400 "Invalid tags detected"
          (.invalidTagsDetail ((b.selectedTags.getD []).filter
            (fun t => !(validTags.contains t)))), rs, ts) := by
  have hm : (("POST" : String) == "OPTIONS") = false := by decide
  obtain ⟨x0, hx0, hnx0⟩ := hinv
  have hfilne : (b.selectedTags.getD []).filter
      (fun t => !(validTags.contains t)) ≠ [] := by
    intro h
    have hmem : x0 ∈ (b.selectedTags.getD []).filter
        (fun t => !(validTags.contains t)) := by
      rw [List.mem_filter]
      exact ⟨hx0, by simp [hnx0]⟩
    rw [h] at hmem
    exact List.not_mem_nil x0 hmem
  have hie : ((b.selectedTags.getD []).filter
      (fun t => !(validTags.contains t))).isEmpty = false := by
    cases h : (b.selectedTags.getD []).filter (fun t => !(validTags.contains t)) with
    | nil => exact absurd h hfilne
    | cons x xs => rfl
  simp [surveySubmission, hm, hval, henv, hie]
  intro hall
  exact absurd (hall x0 hx0) hnx0

/-- Witness for C5: one bogus tag alongside one catalog tag; the reply
names exactly the bogus tag and the tables are untouched. -/
theorem invalid_tags_rejected_no_writes_witness :
    (surveySubmission "POST" (some validBodyBadTag) sampleWorld [] [])
      = (.errorResponse 400 "Invalid tags detected"
          (.invalidTagsDetail ((validBodyBadTag.selectedTags.getD []).filter
            (fun t => !(validTags.contains t)))), [], []) :=
  invalid_tags_rejected_no_writes validBodyBadTag sampleWorld [] []
    (by decide) (by decide) (by decide)

/-- A world whose downstream steps all fail: every tag upsert errors, the
Kit.com fetch times out, the status patch faults. -/
def downstreamFailWorld : World :=
  { sampleWorld with
    tagUpsertOk := fun _ => false
    fetchOutcome := .netError "timeout"
    patchOk := false }

/-- Claim C2: once validation passes and the Response Store append
succeeds, the response is success-shaped (200, success:true) whatever the
per-tag upsert outcomes, the Kit.com fetch outcome, and the status-patch
outcome are: no error after the first durable write propagates. -/
theorem persisted_submission_success_shaped (b : RequestBody) (w : World)
    (rs : List ResponseEntity) (ts : List TagEntity)
    (hval : validateSurveySubmission b = [])
    (henv : (!w.clientsInit && (!w.hasStorageConn || !w.ensureOk)) = false)
    (hinv : ∀ x ∈ b.selectedTags.getD [], x ∈ validTags)
    (happ : w.appendOk = true)
    (hkey : ∀ e ∈ rs, ¬(e.partitionKey = toLowerString (b.email.getD "")
      ∧ e.rowKey = w.genId1)) :
    (surveySubmission "POST" (some b) w rs ts).1.status = 200
    ∧ (surveySubmission "POST" (some b) w rs ts).1.success = some true := by
  have hm : (("POST" : String) == "OPTIONS") = false := by decide
  have h1 : ¬ ∃ x ∈ b.selectedTags.getD [], x ∉ validTags := by
    rintro ⟨x, hx, hnx⟩
    exact hnx (hinv x hx)
  have h2 : ¬ ∃ x ∈ rs, x.partitionKey = toLowerString (b.email.getD "")
      ∧ x.rowKey = w.genId1 := by
    rintro ⟨e, he, hpe⟩
    exact hkey e he hpe
  simp [surveySubmission, hm, hval, henv, happ, surveyResponseEntity, h1, h2,
    HandlerResponse.status, HandlerResponse.success]

/-- Witness for C2: a world where every tag upsert fails, the Kit.com
call times out and the status patch faults still yields a 200
success:true response. -/
theorem persisted_submission_success_shaped_witness :
    (surveySubmission "POST" (some validBody) downstreamFailWorld [] []).1.status
        = 200
    ∧ (surveySubmission "POST" (some validBody)
        downstreamFailWorld [] []).1.success = some true :=
  persisted_submission_success_shaped validBody downstreamFailWorld [] []
    (by decide) (by decide) (by decide) (by decide)
    (fun e he => absurd he (List.not_mem_nil e))

/-- Mapping a function that fixes every member of a list is the
identity. -/
theorem map_fix_of_mem {α : Type} (l : List α) (f : α → α)
    (h : ∀ x ∈ l, f x = x) : l.map f = l := by
  induction l with
  | nil => rfl
  | cons a as ih =>
      rw [List.map_cons, h a (List.mem_cons_self a as),
        ih (fun x hx => h x (List.mem_cons_of_mem a hx))]

/-- Folding upserts of fresh keys appends one record per tag. -/
theorem upsertFold_fresh (email : String) (now : Nat) (tags : List String)
    (s : List TagEntity) (hnd : tags.Nodup)
    (hfresh : ∀ t ∈ tags, hasTagKey s (toLowerString email) t = false) :
    tags.foldl (fun st t => upsertEntity st (mkTagEntity email t now)) s
      = s ++ tags.map (fun t => mkTagEntity email t now) := by
  induction tags generalizing s with
  | nil => simp
  | cons tg rest ih =>
    rw [List.nodup_cons] at hnd
    have h1 : hasTagKey s (toLowerString email) tg = false :=
      hfresh tg (List.mem_cons_self tg rest)
    have hstep : upsertEntity s (mkTagEntity email tg now)
        = s ++ [mkTagEntity email tg now] := by
      unfold upsertEntity
      rw [show (mkTagEntity email tg now).partitionKey = toLowerString email
          from rfl,
        show (mkTagEntity email tg now).rowKey = tg from rfl, h1]
      simp
    rw [List.foldl_cons, hstep,
      ih (s ++ [mkTagEntity email tg now]) hnd.2 ?_]
    · simp
    · intro t htr
      have hts : ¬(tg = t) := fun he => hnd.1 (he ▸ htr)
      unfold hasTagKey at hfresh ⊢
      rw [List.any_append]
      have hs := hfresh t (List.mem_cons_of_mem tg htr)
      unfold hasTagKey at hs
      rw [hs]
      simp [tagKeyMatches, mkTagEntity, hts]

/-- Folding upserts over keys that are all present (once each, atop a
store free of them) rewrites each record in place. -/
theorem upsertFold_replace (email : String) (t1 t2 : Nat) (tags : List String)
    (s : List TagEntity) (hnd : tags.Nodup)
    (hfresh : ∀ t ∈ tags, hasTagKey s (toLowerString email) t = false) :
    tags.foldl (fun st t => upsertEntity st (mkTagEntity email t t2))
        (s ++ tags.map (fun t => mkTagEntity email t t1))
      = s ++ tags.map (fun t => mkTagEntity email t t2) := by
  induction tags generalizing s with
  | nil => simp
  | cons tg rest ih =>
    rw [List.nodup_cons] at hnd
    have hpresent : hasTagKey
        (s ++ (tg :: rest).map (fun t => mkTagEntity email t t1))
        (toLowerString email) tg = true := by
      unfold hasTagKey
      rw [List.any_append]
      simp [tagKeyMatches, mkTagEntity]
    have hstep : upsertEntity
        (s ++ (tg :: rest).map (fun t => mkTagEntity email t t1))
        (mkTagEntity email tg t2)
        = (s ++ [mkTagEntity email tg t2])
          ++ rest.map (fun t => mkTagEntity email t t1) := by
      unfold upsertEntity
      rw [show (mkTagEntity email tg t2).partitionKey = toLowerString email
          from rfl,
        show (mkTagEntity email tg t2).rowKey = tg from rfl, hpresent]
      rw [if_pos rfl, List.map_append, List.map_cons]
      have hsmap : s.map (fun x =>
          if tagKeyMatches (toLowerString email) tg x
          then mkTagEntity email tg t2 else x) = s := by
        apply map_fix_of_mem
        intro x hx
        have hs := hfresh tg (List.mem_cons_self tg rest)
        unfold hasTagKey at hs
        rw [List.any_eq_false] at hs
        rw [if_neg]
        exact hs x hx
      have hhead : (if tagKeyMatches (toLowerString email) tg
          (mkTagEntity email tg t1) then mkTagEntity email tg t2
          else mkTagEntity email tg t1) = mkTagEntity email tg t2 := by
        rw [if_pos]
        simp [tagKeyMatches, mkTagEntity]
      have hrest : (rest.map (fun t => mkTagEntity email t t1)).map (fun x =>
          if tagKeyMatches (toLowerString email) tg x
          then mkTagEntity email tg t2 else x)
          = rest.map (fun t => mkTagEntity email t t1) := by
        apply map_fix_of_mem
        intro x hx
        rw [List.mem_map] at hx
        obtain ⟨t, htr, hxe⟩ := hx
        have hts : ¬(t = tg) := fun he => hnd.1 (he ▸ htr)
        rw [if_neg]
        rw [← hxe]
        simp [tagKeyMatches, mkTagEntity, hts]
      rw [List.map_cons, hsmap, hhead, hrest]
      simp
    rw [List.foldl_cons, hstep,
      ih (s ++ [mkTagEntity email tg t2]) hnd.2 ?_]
    · simp
    · intro t htr
      have hts : ¬(tg = t) := fun he => hnd.1 (he ▸ htr)
      unfold hasTagKey
      rw [List.any_append]
      have hs := hfresh t (List.mem_cons_of_mem tg htr)
      unfold hasTagKey at hs
      rw [hs]
      simp [tagKeyMatches, mkTagEntity, hts]

/-- Claim C4: for an email and `n` distinct valid tag names, running the
tag-store upsert twice with the same tag set over a store holding no
records for that email leaves exactly `n` tag records for the email (one
per (email, tag) pair, no duplicates), the second run refreshing each
record's timestamp rather than creating new records. -/
theorem upsert_twice_no_duplicates (email : String) (tags : List String)
    (t1 t2 : Nat) (s0 : List TagEntity) (hnd : tags.Nodup)
    (hfresh : ∀ e ∈ s0, ¬(e.partitionKey = toLowerString email)) :
    ((((saveUserTags email tags (fun _ => true) t2
        (saveUserTags email tags (fun _ => true) t1 s0).2).2).filter
          (fun e => e.partitionKey == toLowerString email)).map
            TagEntity.rowKey = tags)
    ∧ (((saveUserTags email tags (fun _ => true) t2
        (saveUserTags email tags (fun _ => true) t1 s0).2).2).filter
          (fun e => e.partitionKey == toLowerString email)).length = tags.length
    ∧ ∀ e ∈ ((saveUserTags email tags (fun _ => true) t2
        (saveUserTags email tags (fun _ => true) t1 s0).2).2).filter
          (fun e => e.partitionKey == toLowerString email),
        e.createdAt = t2 := by
  have hkeys : ∀ t ∈ tags, hasTagKey s0 (toLowerString email) t = false := by
    intro t ht
    unfold hasTagKey
    rw [List.any_eq_false]
    intro e he
    simp only [tagKeyMatches, Bool.not_eq_true, Bool.and_eq_false_iff]
    left
    simp [hfresh e he]
  have hfold : ∀ (tm : Nat) (s : List TagEntity),
      (saveUserTags email tags (fun _ => true) tm s).2
        = tags.foldl (fun st t => upsertEntity st (mkTagEntity email t tm)) s := by
    intro tm s
    simp [saveUserTags]
  have hs1 : (saveUserTags email tags (fun _ => true) t1 s0).2
      = s0 ++ tags.map (fun t => mkTagEntity email t t1) := by
    rw [hfold, upsertFold_fresh email t1 tags s0 hnd hkeys]
  have hs2 : (saveUserTags email tags (fun _ => true) t2
      (saveUserTags email tags (fun _ => true) t1 s0).2).2
      = s0 ++ tags.map (fun t => mkTagEntity email t t2) := by
    rw [hfold, hs1, upsertFold_replace email t1 t2 tags s0 hnd hkeys]
  have hfilter : ((saveUserTags email tags (fun _ => true) t2
      (saveUserTags email tags (fun _ => true) t1 s0).2).2).filter
        (fun e => e.partitionKey == toLowerString email)
      = tags.map (fun t => mkTagEntity email t t2) := by
    rw [hs2, List.filter_append]
    have hnil : s0.filter (fun e => e.partitionKey == toLowerString email) = [] := by
      rw [List.filter_eq_nil_iff]
      intro e he
      simp [hfresh e he]
    have hall : (tags.map (fun t => mkTagEntity email t t2)).filter
        (fun e => e.partitionKey == toLowerString email)
        = tags.map (fun t => mkTagEntity email t t2) := by
      rw [List.filter_eq_self]
      intro e he
      rw [List.mem_map] at he
      obtain ⟨t, -, hte⟩ := he
      rw [← hte]
      simp [mkTagEntity]
    rw [hnil, hall, List.nil_append]
  refine ⟨?_, ?_, ?_⟩
  · rw [hfilter, List.map_map]
    have : (TagEntity.rowKey ∘ fun t => mkTagEntity email t t2)
        = fun t => t := by
      funext t
      rfl
    rw [this, List.map_id']
  · rw [hfilter, List.length_map]
  · intro e he
    rw [hfilter, List.mem_map] at he
    obtain ⟨t, -, hte⟩ := he
    rw [← hte]
    rfl

/-- Witness for C4: nine distinct catalog tags upserted twice into an
empty store yield nine records stamped with the second timestamp. -/
theorem upsert_twice_no_duplicates_witness :
    ((((saveUserTags "a@b.com" ["setting_mixed", "role_therapist", "pop_adults",
        "pop_teens", "interest_art", "freq_daily", "mod_cbt", "mod_dbt", "mod_ifs"]
        (fun _ => true) 2
        (saveUserTags "a@b.com" ["setting_mixed", "role_therapist", "pop_adults",
          "pop_teens", "interest_art", "freq_daily", "mod_cbt", "mod_dbt", "mod_ifs"]
          (fun _ => true) 1 []).2).2).filter
          (fun e => e.partitionKey == toLowerString "a@b.com")).map
            TagEntity.rowKey
      = ["setting_mixed", "role_therapist", "pop_adults", "pop_teens",
         "interest_art", "freq_daily", "mod_cbt", "mod_dbt", "mod_ifs"])
    ∧ (((saveUserTags "a@b.com" ["setting_mixed", "role_therapist", "pop_adults",
        "pop_teens", "interest_art", "freq_daily", "mod_cbt", "mod_dbt", "mod_ifs"]
        (fun _ => true) 2
        (saveUserTags "a@b.com" ["setting_mixed", "role_therapist", "pop_adults",
          "pop_teens", "interest_art", "freq_daily", "mod_cbt", "mod_dbt", "mod_ifs"]
          (fun _ => true) 1 []).2).2).filter
          (fun e => e.partitionKey == toLowerString "a@b.com")).length
      = (["setting_mixed", "role_therapist", "pop_adults", "pop_teens",
         "interest_art", "freq_daily", "mod_cbt", "mod_dbt", "mod_ifs"]
          : List String).length
    ∧ ∀ e ∈ ((saveUserTags "a@b.com" ["setting_mixed", "role_therapist",
        "pop_adults", "pop_teens", "interest_art", "freq_daily", "mod_cbt",
        "mod_dbt", "mod_ifs"] (fun _ => true) 2
        (saveUserTags "a@b.com" ["setting_mixed", "role_therapist", "pop_adults",
          "pop_teens", "interest_art", "freq_daily", "mod_cbt", "mod_dbt", "mod_ifs"]
          (fun _ => true) 1 []).2).2).filter
          (fun e => e.partitionKey == toLowerString "a@b.com"),
        e.createdAt = 2 :=
  upsert_twice_no_duplicates "a@b.com"
    ["setting_mixed", "role_therapist", "pop_adults", "pop_teens",
     "interest_art", "freq_daily", "mod_cbt", "mod_dbt", "mod_ifs"] 1 2 []
    (by decide) (fun e he => absurd he (List.not_mem_nil e))

/-- The `kitSyncStatus` the success response reports (`none` for error
responses). -/
def HandlerResponse.dataKitSyncStatus : HandlerResponse → Option String
  | .successResponse d => some d.kitSyncStatus
  | _ => none

/-- A healthy world whose Kit.com call answers with a non-2xx status. -/
def kitFailWorld : World :=
  { sampleWorld with fetchOutcome := .httpError 500 "server error" }

/-- Claim C1 evaluated at its failing input: a valid submission, append
succeeding, status-patch storage healthy, Kit.com answering 500. The
handler does return 200 success:true and reports the sync as failed, but
the stored record keeps sync-status `pending`: `createEntity` returns no
`rowKey`, so the patch at line 467 targets the second generated id
(`id2`) while the record was saved under the first (`id1`), and the Merge
finds nothing to update. -/
theorem sync_status_stays_pending_on_kit_failure :
    (surveySubmission "POST" (some validBody) kitFailWorld [] []).1.status = 200
    ∧ (surveySubmission "POST" (some validBody) kitFailWorld [] []).1.success
        = some true
    ∧ (surveySubmission "POST" (some validBody)
        kitFailWorld [] []).1.dataKitSyncStatus = some "failed"
    ∧ (surveySubmission "POST" (some validBody) kitFailWorld [] []).2.1.map
        ResponseEntity.kitSyncStatus = ["pending"] := by
  refine ⟨by decide, by decide, by decide, by decide⟩

end SurveyBackend
